import Mathlib

/-
Verification of the conversation core of the ai-convo repository:
the append-only message ledger with bounded retention
(src/conversation/history.ts), the persona registry
(src/conversation/personas.ts), the conversation analytics
(src/conversation/analytics.ts) and the two-party turn scheduler
(src/conversation/manager.ts).

Modelling conventions, used throughout:
- randomUUID and Date are modelled by a monotone counter: HistoryState.nextId
  is the fresh-id source and doubles as the clock, so message ids and
  timestamps are distinct increasing naturals.  Nothing proved here depends
  on the concrete id or timestamp values.
- JavaScript records and Maps are modelled as insertion-ordered association
  lists, matching the enumeration order of Object.keys / Map.values.
- Promise-returning calls to the Ollama HTTP client are modelled by passing
  the outcome of each call explicitly: a Backend function receives the index
  of the call together with the request arguments and returns the call's
  result (Except: error = rejected promise).
-/

namespace AiConvo

/-- One exchanged utterance (ConversationMessage in src/types, created by
ConversationHistoryManager.addMessage). -/
structure ConversationMessage where
  id : Nat
  personaName : String
  content : String
  timestamp : Nat
  metadata : Option (Nat × String)
  deriving DecidableEq

/-- The message metadata the scheduler attaches: turn index and model name
(manager.ts lines 149-156).  Other callers pass no metadata. -/
def mkMetadata (turn : Nat) (model : String) : Option (Nat × String) :=
  some (turn, model)

/-- ConversationHistory: the ledger's aggregate record (history.ts lines
21-26).  nextId is the fresh-id / clock counter (see the header comment). -/
structure HistoryState where
  messages : List ConversationMessage
  startTime : Nat
  endTime : Option Nat
  topic : Option String
  totalMessages : Nat
  nextId : Nat
  deriving DecidableEq

/-- ConversationHistoryManager: the ledger state plus its two configured
bounds (history.ts lines 8-19). -/
structure ConversationHistoryManager where
  history : HistoryState
  maxMessages : Nat
  maxContextWindow : Nat
  deriving DecidableEq

/-- The constructor (history.ts lines 13-33): empty retained list,
startTime now, counter zero.  The clock starts at 1 so that message
timestamps come after startTime = 0. -/
def ConversationHistoryManager.init (topic : Option String)
    (maxMessages : Nat := 1000) (maxContextWindow : Nat := 20) :
    ConversationHistoryManager :=
  { history :=
      { messages := []
        startTime := 0
        endTime := none
        topic := topic
        totalMessages := 0
        nextId := 1 }
    maxMessages := maxMessages
    maxContextWindow := maxContextWindow }

/-- addMessage (history.ts lines 35-68): push a freshly stamped message to
the tail, bump the monotone total counter, then silently splice the excess
oldest messages off the head when the retained count exceeds maxMessages. -/
def ConversationHistoryManager.addMessage (hm : ConversationHistoryManager)
    (personaName content : String) (metadata : Option (Nat × String) := none) :
    ConversationMessage × ConversationHistoryManager :=
  let message : ConversationMessage :=
    { id := hm.history.nextId
      personaName := personaName
      content := content
      timestamp := hm.history.nextId
      metadata := metadata }
  let pushed := hm.history.messages ++ [message]
  let trimmed :=
    if pushed.length > hm.maxMessages then
      pushed.drop (pushed.length - hm.maxMessages)
    else pushed
  (message,
    { hm with
        history :=
          { hm.history with
              messages := trimmed
              totalMessages := hm.history.totalMessages + 1
              nextId := hm.history.nextId + 1 } })

/-- getMessages (history.ts lines 70-72): the retained messages (the source
returns a fresh copy; copies are identities in the pure model). -/
def ConversationHistoryManager.getMessages (hm : ConversationHistoryManager) :
    List ConversationMessage :=
  hm.history.messages

/-- getLastMessage (history.ts lines 74-76). -/
def ConversationHistoryManager.getLastMessage (hm : ConversationHistoryManager) :
    Option ConversationMessage :=
  hm.history.messages.getLast?

/-- getLastMessages (history.ts lines 78-81): slice from
max(0, length - count); count is a JavaScript number, so it may be negative. -/
def ConversationHistoryManager.getLastMessages (hm : ConversationHistoryManager)
    (count : Int) : List ConversationMessage :=
  let start : Int := max 0 ((hm.history.messages.length : Int) - count)
  hm.history.messages.drop start.toNat

/-- getMessagesByPersona (history.ts lines 83-85). -/
def ConversationHistoryManager.getMessagesByPersona (hm : ConversationHistoryManager)
    (personaName : String) : List ConversationMessage :=
  hm.history.messages.filter (fun msg => msg.personaName = personaName)

/-- getContextWindow (history.ts lines 87-90). -/
def ConversationHistoryManager.getContextWindow (hm : ConversationHistoryManager) :
    List String :=
  (hm.getLastMessages hm.maxContextWindow).map
    (fun msg => msg.personaName ++ ": " ++ msg.content)

/-- getConversationHistory (history.ts lines 92-97): a snapshot copy. -/
def ConversationHistoryManager.getConversationHistory (hm : ConversationHistoryManager) :
    HistoryState :=
  hm.history

/-- getTotalMessages (history.ts lines 99-101). -/
def ConversationHistoryManager.getTotalMessages (hm : ConversationHistoryManager) : Nat :=
  hm.history.totalMessages

/-- getDuration (history.ts lines 103-106): (endTime or now) - startTime,
with "now" read from the clock counter. -/
def ConversationHistoryManager.getDuration (hm : ConversationHistoryManager) : Nat :=
  (hm.history.endTime.getD hm.history.nextId) - hm.history.startTime

/-- One step of building the messagesByPersona record: JavaScript object
update keeps first-insertion key order. -/
def bumpCount : List (String × Nat) → String → List (String × Nat)
  | [], name => [(name, 1)]
  | (k, v) :: rest, name =>
      if k = name then (k, v + 1) :: rest else (k, v) :: bumpCount rest name

/-- Lookup in an insertion-ordered count record, 0 when absent. -/
def lookupCount (counts : List (String × Nat)) (name : String) : Nat :=
  match counts with
  | [] => 0
  | (k, v) :: rest => if k = name then v else lookupCount rest name

/-- The stats block returned by getMessageStats (history.ts lines 108-132). -/
structure MessageStats where
  totalMessages : Nat
  messagesByPersona : List (String × Nat)
  averageMessageLength : Rat
  conversationDuration : Nat
  deriving DecidableEq

/-- getMessageStats (history.ts lines 108-132): per-persona counts and
average length over the retained messages only; the total counter and the
duration from the ledger record. -/
def ConversationHistoryManager.getMessageStats (hm : ConversationHistoryManager) :
    MessageStats :=
  let messagesByPersona :=
    hm.history.messages.foldl (fun acc message => bumpCount acc message.personaName) []
  let totalLength : Nat :=
    hm.history.messages.foldl (fun acc message => acc + message.content.length) 0
  { totalMessages := hm.history.totalMessages
    messagesByPersona := messagesByPersona
    averageMessageLength :=
      if hm.history.messages.length > 0 then
        (totalLength : Rat) / (hm.history.messages.length : Rat)
      else 0
    conversationDuration := hm.getDuration }

/-- Char-list prefix test (the inner loop of a substring scan). -/
def listStartsWith : List Char → List Char → Bool
  | _, [] => true
  | [], _ :: _ => false
  | a :: hay, b :: rest => a = b && listStartsWith hay rest

/-- Char-list substring test: models JavaScript String.prototype.includes. -/
def listContainsSub : List Char → List Char → Bool
  | hay, needle =>
      listStartsWith hay needle ||
        match hay with
        | [] => false
        | _ :: tail => listContainsSub tail needle

/-- String.prototype.includes, on the model's strings. -/
def jsIncludes (hay needle : String) : Bool :=
  listContainsSub hay.toList needle.toList

/-- String.prototype.toLowerCase, modelled characterwise with the ASCII
case map (the JavaScript original also folds non-ASCII letters; none of the
behaviour verified here depends on those). -/
def jsToLower (s : String) : String :=
  String.mk (s.toList.map Char.toLower)

/-- searchMessages (history.ts lines 134-150): filter the retained messages
by a substring match on content or speaker name, case-folded unless
caseSensitive. -/
def ConversationHistoryManager.searchMessages (hm : ConversationHistoryManager)
    (query : String) (caseSensitive : Bool := false) : List ConversationMessage :=
  let searchTerm := if caseSensitive then query else jsToLower query
  hm.history.messages.filter (fun message =>
    let content := if caseSensitive then message.content else jsToLower message.content
    let personaName :=
      if caseSensitive then message.personaName else jsToLower message.personaName
    jsIncludes content searchTerm || jsIncludes personaName searchTerm)

/-- endConversation (history.ts lines 208-214): stamp endTime with now. -/
def ConversationHistoryManager.endConversation (hm : ConversationHistoryManager) :
    ConversationHistoryManager :=
  { hm with
      history :=
        { hm.history with
            endTime := some hm.history.nextId
            nextId := hm.history.nextId + 1 } }

/-- clear (history.ts lines 216-224). -/
def ConversationHistoryManager.clear (hm : ConversationHistoryManager) :
    ConversationHistoryManager :=
  { hm with
      history :=
        { hm.history with
            messages := []
            totalMessages := 0
            startTime := hm.history.nextId
            endTime := none
            nextId := hm.history.nextId + 1 } }

/-- setTopic (history.ts lines 226-229). -/
def ConversationHistoryManager.setTopic (hm : ConversationHistoryManager)
    (topic : String) : ConversationHistoryManager :=
  { hm with history := { hm.history with topic := some topic } }

/-- Fold of addMessage over a list of (speaker, content, metadata) triples:
N consecutive appends to the ledger. -/
def appendMany (hm : ConversationHistoryManager)
    (items : List (String × String × Option (Nat × String))) :
    ConversationHistoryManager :=
  items.foldl (fun h it => (h.addMessage it.1 it.2.1 it.2.2).2) hm

/-- The append-time data of a retained message (what the caller supplied,
without the generated id and timestamp). -/
def msgData (m : ConversationMessage) : String × String × Option (Nat × String) :=
  (m.personaName, m.content, m.metadata)

/-- Specification-level substring relation (the spec's "contains the query
as a substring"): the needle occurs contiguously inside the hay. -/
def SubstringOf (needle hay : String) : Prop :=
  ∃ pre post, hay.toList = pre ++ needle.toList ++ post

/-- Specification-level search predicate, following the spec's words:
content OR speaker name contains the query as a substring, case-folded
unless caseSensitive. -/
def MatchesQuery (caseSensitive : Bool) (query : String)
    (m : ConversationMessage) : Prop :=
  SubstringOf (if caseSensitive then query else jsToLower query)
      (if caseSensitive then m.content else jsToLower m.content) ∨
    SubstringOf (if caseSensitive then query else jsToLower query)
      (if caseSensitive then m.personaName else jsToLower m.personaName)

/-
Persona registry (src/conversation/personas.ts).
-/

/-- PersonaConfig (src/types): a named conversational identity. -/
structure PersonaConfig where
  name : String
  personality : String
  speakingStyle : String
  interests : List String
  systemPrompt : Option String
  deriving DecidableEq

/-- PersonaManager's Map, as an insertion-ordered association list
(keys are already lowercased by the class's own normalization). -/
structure PersonaManager where
  personas : List (String × PersonaConfig)
  deriving DecidableEq

/-- getAllPersonas (personas.ts lines 154-156): Map.values order. -/
def PersonaManager.getAllPersonas (pm : PersonaManager) : List PersonaConfig :=
  pm.personas.map Prod.snd

/-- getRandomPersonaPair (personas.ts lines 170-180).  The source shuffles
by sorting under a random comparator and picks the first two entries; by
the JavaScript Array.prototype.sort contract the sorted array is some
permutation of the input, so the random shuffle is modelled by an explicit
shuffle function whose output is constrained (in the theorems) to be a
permutation of its input.  The none results model the two throwing paths:
fewer than two personas, and (unreachably, under the permutation
constraint) a too-short shuffle output. -/
def PersonaManager.getRandomPersonaPair (pm : PersonaManager)
    (shuffle : List PersonaConfig → List PersonaConfig) :
    Option (PersonaConfig × PersonaConfig) :=
  let allPersonas := pm.getAllPersonas
  if allPersonas.length < 2 then none
  else
    match shuffle allPersonas with
    | a :: b :: _ => some (a, b)
    | _ => none

/-- validatePersona (personas.ts lines 182-202): every check runs
independently; whitespace-only strings count as empty (trim). -/
def PersonaManager.validatePersona (persona : PersonaConfig) : List String :=
  let errors : List String := []
  let errors :=
    if persona.name.trim = "" then errors ++ ["Persona name is required"] else errors
  let errors :=
    if persona.personality.trim = "" then
      errors ++ ["Persona personality is required"]
    else errors
  let errors :=
    if persona.speakingStyle.trim = "" then
      errors ++ ["Persona speaking style is required"]
    else errors
  let errors :=
    if persona.interests.length = 0 then
      errors ++ ["Persona must have at least one interest"]
    else errors
  errors

/-
Conversation analytics (src/conversation/analytics.ts).
-/

/-- ConversationSummary.type (src/types). -/
inductive SummaryType
  | periodic
  | context_compact
  | final
  deriving DecidableEq

/-- ConversationSummary (src/types), produced by the analytics component.
messageRange is flattened into its two index fields. -/
structure ConversationSummary where
  id : Nat
  type : SummaryType
  content : String
  messageRangeStart : Nat
  messageRangeEnd : Nat
  createdAt : Nat
  keyTopics : List String
  participantContributions : List (String × String)
  deriving DecidableEq

/-- The response of one OllamaClient.generateResponse call
(AIResponse in src/types; timestamp and token usage are not read by any
caller covered here). -/
structure AIResponse where
  content : String
  model : String
  deriving DecidableEq

/-- The generation backend: the n-th call, with its prompt, optional system
instruction and optional prior context, either resolves to an AIResponse or
rejects with an error message. -/
abbrev Backend :=
  Nat → String → Option String → Option (List String) → Except String AIResponse

/-- The fixed stop-word set of extractKeywords (analytics.ts lines 302-371). -/
def commonWords : List String :=
  ["the", "a", "an", "and", "or", "but", "in", "on", "at", "to", "for", "of",
   "with", "by", "is", "are", "was", "were", "be", "been", "have", "has",
   "had", "do", "does", "did", "will", "would", "could", "should", "may",
   "might", "can", "this", "that", "these", "those", "i", "you", "he", "she",
   "it", "we", "they", "me", "him", "her", "us", "them", "my", "your", "his",
   "its", "our", "their", "what", "when", "where", "why", "how", "think",
   "really", "just", "like", "know", "well", "also", "very"]

/-- A JavaScript word character (the regex class w is ASCII letters, digits
and underscore). -/
def isWordChar (c : Char) : Bool :=
  c.isAlphanum || c = '_'

/-- extractKeywords (analytics.ts lines 300-386): lower-case, replace every
non-word non-space character by a space, split on whitespace, keep words
longer than 3 characters that are not stop words, count occurrences
(insertion order = first occurrence), sort by count descending (stable, as
JavaScript sort is), take 10. -/
def extractKeywords (text : String) : List String :=
  let cleaned : List Char :=
    (jsToLower text).toList.map
      (fun c => if isWordChar c || c.isWhitespace then c else ' ')
  let words :=
    ((String.mk cleaned).split Char.isWhitespace).filter
      (fun word => word.length > 3 && !(commonWords.contains word))
  let wordCounts := words.foldl bumpCount []
  ((wordCounts.mergeSort (fun a b => b.2 ≤ a.2)).map Prod.fst).take 10

/-- The deduplication [...new Set(xs)] performs: keep the first occurrence
of each element, in order. -/
def dedupKeepFirst : List String → List String
  | [] => []
  | x :: rest => x :: dedupKeepFirst (rest.filter (fun y => !(y = x)))
termination_by xs => xs.length
decreasing_by
  simp only [List.length_cons]
  exact Nat.lt_succ_of_le (List.length_filter_le _ _)

/-- generateBasicSummary (analytics.ts lines 265-298): the deterministic
local fallback summary.  randomUUID and new Date are modelled as 0 (their
values are never read by any property here). -/
def generateBasicSummary (messages : List ConversationMessage)
    (type : SummaryType) : ConversationSummary :=
  let personas := dedupKeepFirst (messages.map (fun m => m.personaName))
  let messagesByPersona :=
    messages.foldl (fun acc msg => bumpCount acc msg.personaName) []
  let topics :=
    extractKeywords (String.intercalate " " (messages.map (fun m => m.content)))
  let content :=
    "Conversation summary: " ++ toString messages.length ++
      " messages exchanged between " ++ String.intercalate " and " personas ++
      ". Key topics discussed: " ++ String.intercalate ", " (topics.take 3) ++ "."
  { id := 0
    type := type
    content := content
    messageRangeStart := 0
    messageRangeEnd := messages.length - 1
    createdAt := 0
    keyTopics := topics.take 5
    participantContributions :=
      personas.map (fun p =>
        (p, "Contributed " ++ toString (lookupCount messagesByPersona p) ++ " messages")) }

/-- The fields parseSummaryResponse reads off the backend's JSON-shaped
response (summary, keyTopics, contributions), after JSON.parse. -/
structure ParsedSummary where
  summary : Option String
  keyTopics : Option (List String)
  contributions : Option (List (String × String))

/-- parseSummaryResponse (analytics.ts lines 237-263).  JSON.parse plus
field extraction is external text processing, passed in as parse; parse
failure (the catch arm) yields the fallback summary.  An empty parsed
summary string is falsy in the source, hence also replaced by the default
text. -/
def parseSummaryResponse (parse : String → Option ParsedSummary)
    (response : String) (messages : List ConversationMessage)
    (type : SummaryType) : ConversationSummary :=
  match parse response with
  | some parsed =>
      { id := 0
        type := type
        content :=
          match parsed.summary with
          | some s => if s = "" then "Summary not available" else s
          | none => "Summary not available"
        messageRangeStart := 0
        messageRangeEnd := messages.length - 1
        createdAt := 0
        keyTopics := parsed.keyTopics.getD []
        participantContributions := parsed.contributions.getD [] }
  | none => generateBasicSummary messages type

/-- buildSummaryPrompt (analytics.ts lines 198-235). -/
def buildSummaryPrompt (conversationText : String) (type : SummaryType)
    (personas : PersonaConfig × PersonaConfig) : String :=
  let persona1 := personas.1
  let persona2 := personas.2
  let p :=
    "Please analyze and summarize the following conversation between " ++
      persona1.name ++ " and " ++ persona2.name ++ ":\n\n" ++
      conversationText ++ "\n\n"
  let p := p ++
    (match type with
     | .periodic =>
         "Create a concise summary of the key points discussed, major insights, and the direction of the conversation."
     | .context_compact =>
         "Create a condensed summary that preserves the essential context and key insights for continuing the conversation."
     | .final =>
         "Create a comprehensive summary of the entire conversation, including main themes, conclusions, and significant insights.")
  p ++ "\n\nPlease format your response as JSON with the following structure:\n" ++
    "\x7b\n  \"summary\": \"Main summary text\",\n  \"keyTopics\": [\"topic1\", \"topic2\", \"topic3\"],\n  \"contributions\": \x7b\n    \"" ++
    persona1.name ++ "\": \"Brief description of their main contributions\",\n    \"" ++
    persona2.name ++ "\": \"Brief description of their main contributions\"\n  \x7d\n\x7d"

/-- generateSummary (analytics.ts lines 21-65): reject outright on an empty
slice; otherwise ask the backend for a structured summary and degrade to
the deterministic local summary on backend failure (catch arm) or parse
failure (inside parseSummaryResponse). -/
def generateSummary (backend : Backend) (parse : String → Option ParsedSummary)
    (callIdx : Nat) (messages : List ConversationMessage) (type : SummaryType)
    (personas : PersonaConfig × PersonaConfig) :
    Except String ConversationSummary :=
  if messages.length = 0 then
    .error "Cannot generate summary for empty message list"
  else
    let conversationText :=
      String.intercalate "\n"
        (messages.map (fun msg => msg.personaName ++ ": " ++ msg.content))
    let summaryPrompt := buildSummaryPrompt conversationText type personas
    match backend callIdx summaryPrompt
        (some "You are a helpful assistant that creates concise, insightful summaries of conversations between AI personas.")
        none with
    | .ok response => .ok (parseSummaryResponse parse response.content messages type)
    | .error _ => .ok (generateBasicSummary messages type)

/-
Conversation scheduler (src/conversation/manager.ts).
-/

/-- The two speaker roles of ConversationState.currentPersona. -/
inductive PersonaRole
  | primary
  | secondary
  deriving DecidableEq

/-- Flip between the two roles (the body of switchPersona). -/
def PersonaRole.flip : PersonaRole → PersonaRole
  | .primary => .secondary
  | .secondary => .primary

/-- The slice of Config the manager reads (config.personas.primary and
.secondary, config.ollama.model, config.conversation.maxTurns,
.contextWindow and .turnDelay), flattened. -/
structure Config where
  primary : PersonaConfig
  secondary : PersonaConfig
  modelName : String
  maxTurns : Option Nat
  contextWindow : Nat
  turnDelay : Nat
  deriving DecidableEq

/-- ConversationState (src/types): the scheduler's ephemeral state.
history is the snapshot copy updateContext refreshes. -/
structure ConversationState where
  isActive : Bool
  currentTurn : Nat
  history : HistoryState
  currentPersona : PersonaRole
  context : List String
  maxTurns : Option Nat
  deriving DecidableEq

/-- The ConversationManager's fields (manager.ts lines 23-29): the ledger,
the state record and the isRunning flag.  The OllamaClient is external; its
calls are routed through the Backend argument of the loop functions. -/
structure ConversationManager where
  config : Config
  historyManager : ConversationHistoryManager
  state : ConversationState
  isRunning : Bool
  deriving DecidableEq

/-- The constructor (manager.ts lines 31-65): ledger with max 1000 retained
messages and the configured context window; idle state, turn 0, primary
speaker, empty context; maxTurns taken from config only when truthy
(a configured 0 is falsy in the source and sets no ceiling). -/
def ConversationManager.init (config : Config) : ConversationManager :=
  let historyManager := ConversationHistoryManager.init none 1000 config.contextWindow
  { config := config
    historyManager := historyManager
    state :=
      { isActive := false
        currentTurn := 0
        history := historyManager.getConversationHistory
        currentPersona := .primary
        context := []
        maxTurns :=
          match config.maxTurns with
          | some m => if m = 0 then none else some m
          | none => none }
    isRunning := false }

/-- getCurrentPersona (manager.ts lines 250-255).  Both personas exist in
the config record, so the undefined arm of the source cannot occur. -/
def ConversationManager.getCurrentPersona (m : ConversationManager) : PersonaConfig :=
  match m.state.currentPersona with
  | .primary => m.config.primary
  | .secondary => m.config.secondary

/-- switchPersona (manager.ts lines 257-260). -/
def ConversationManager.switchPersona (m : ConversationManager) : ConversationManager :=
  { m with state.currentPersona := m.state.currentPersona.flip }

/-- updateContext (manager.ts lines 262-265). -/
def ConversationManager.updateContext (m : ConversationManager) : ConversationManager :=
  { m with
      state.context := m.historyManager.getContextWindow
      state.history := m.historyManager.getConversationHistory }

/-- shouldStopConversation (manager.ts lines 267-283): stop when maxTurns
is set (and truthy) and reached, or when externally stopped.  A maxTurns
of 0 is falsy in the source, so it never triggers the ceiling check. -/
def ConversationManager.shouldStopConversation (m : ConversationManager) : Bool :=
  (match m.state.maxTurns with
   | some mt => if mt = 0 then false else m.state.currentTurn ≥ mt
   | none => false) ||
    !m.isRunning

/-- buildDefaultSystemPrompt (manager.ts lines 238-248). -/
def ConversationManager.buildDefaultSystemPrompt (persona : PersonaConfig) : String :=
  "You are " ++ persona.name ++ ". \n\nPersonality: " ++ persona.personality ++
    "\n\nSpeaking Style: " ++ persona.speakingStyle ++ "\n\nInterests: " ++
    String.intercalate ", " persona.interests ++
    "\n\nPlease respond in character, keeping your responses conversational and engaging (2-4 sentences typically)."

/-- buildConversationPrompt (manager.ts lines 220-236). -/
def ConversationManager.buildConversationPrompt (m : ConversationManager)
    (conversationContext : String) (persona : PersonaConfig) : String :=
  let topic := m.historyManager.getConversationHistory.topic
  let p :=
    match topic with
    | some t => "The conversation topic is: " ++ t ++ "\n\n"
    | none => ""
  p ++ "Recent conversation:\n" ++ conversationContext ++ "\n\n" ++
    "Please respond as " ++ persona.name ++
    ", continuing this conversation naturally. " ++
    "Stay true to your character and speaking style."

/-- ConversationError, reduced to its code tag (src/types; the message and
details are never branched on). -/
structure ConversationError where
  code : String
  deriving DecidableEq

/-- generatePersonaResponse (manager.ts lines 187-218): build the prompts
and context, invoke the backend (callIdx-th call), trim the returned text;
a backend failure is wrapped as a GENERATION_FAILED conversation error. -/
def ConversationManager.generatePersonaResponse (m : ConversationManager)
    (backend : Backend) (callIdx : Nat) (persona : PersonaConfig) :
    Except ConversationError String :=
  let context := m.historyManager.getContextWindow
  let systemPrompt := persona.systemPrompt.getD (buildDefaultSystemPrompt persona)
  let conversationContext :=
    String.intercalate "\n" (context.drop (context.length - 10))
  let prompt := m.buildConversationPrompt conversationContext persona
  match backend callIdx prompt (some systemPrompt) (some context) with
  | .ok response => .ok response.content.trim
  | .error _ => .error { code := "GENERATION_FAILED" }

/-- The tagged-variant stream of EventEmitter signals the manager emits
(ConversationEvents, manager.ts lines 15-21).  The error signal carries the
emitted error's code; the ended signal carries the final stats fields. -/
inductive ConversationEvent
  | started
  | message (msg : ConversationMessage)
  | thinking (personaName : String)
  | error (code : String)
  | ended (totalMessages : Nat) (duration : Nat)
  deriving DecidableEq

/-- Whether one loop iteration falls through to the next iteration or
leaves the while loop (break, or a false loop condition). -/
inductive IterSignal
  | next
  | exitLoop
  deriving DecidableEq

/-- One iteration of the while body of runConversationLoop (manager.ts
lines 127-181): stop-condition check, thinking signal, generation, append +
message signal + turn/persona/context update on success; on failure an
error signal and either fall-through (self-heal) or break when the error is
tagged critical. -/
def ConversationManager.loopIter (m : ConversationManager) (backend : Backend)
    (callIdx : Nat) :
    ConversationManager × List ConversationEvent × IterSignal :=
  if m.shouldStopConversation then (m, [], .exitLoop)
  else
    let currentPersona := m.getCurrentPersona
    match m.generatePersonaResponse backend callIdx currentPersona with
    | .error e =>
        (m, [.thinking currentPersona.name, .error e.code],
          if e.code = "CRITICAL" then .exitLoop else .next)
    | .ok responseContent =>
        let (responseMessage, h) :=
          m.historyManager.addMessage currentPersona.name responseContent
            (mkMetadata m.state.currentTurn m.config.modelName)
        let m := { m with historyManager := h }
        let m := { m with state.currentTurn := m.state.currentTurn + 1 }
        let m := m.switchPersona
        let m := m.updateContext
        (m, [.thinking currentPersona.name, .message responseMessage], .next)

/-- endConversation (manager.ts lines 285-302): clear the run flags, end
the ledger, and emit the end-signal with the final stats. -/
def ConversationManager.endConversation (m : ConversationManager) :
    ConversationManager × ConversationEvent :=
  let m := { m with isRunning := false, state.isActive := false }
  let m := { m with historyManager := m.historyManager.endConversation }
  let stats := m.historyManager.getMessageStats
  (m, .ended stats.totalMessages stats.conversationDuration)

/-- The outcome of running the conversation loop for a bounded number of
iterations: finished means the while loop exited and endConversation ran;
stillRunning means the iteration budget (fuel) was exhausted with the loop
still live. -/
inductive LoopResult
  | finished (m : ConversationManager) (events : List ConversationEvent)
  | stillRunning (m : ConversationManager) (events : List ConversationEvent)
  deriving DecidableEq

/-- The manager a loop run ends in. -/
def LoopResult.manager : LoopResult → ConversationManager
  | .finished m _ => m
  | .stillRunning m _ => m

/-- The events a loop run emitted. -/
def LoopResult.events : LoopResult → List ConversationEvent
  | .finished _ evs => evs
  | .stillRunning _ evs => evs

/-- runConversationLoop (manager.ts lines 126-185), with an explicit
iteration budget: while isRunning and isActive, run one iteration (the
callIdx-th backend call), then either continue, or run endConversation on
loop exit.  The inter-turn sleep suspends without observable effect. -/
def ConversationManager.runConversationLoop (backend : Backend) :
    Nat → ConversationManager → Nat → LoopResult
  | 0, m, _ => .stillRunning m []
  | fuel + 1, m, callIdx =>
    if m.isRunning && m.state.isActive then
      match m.loopIter backend callIdx with
      | (m1, evs, .exitLoop) =>
          .finished m1.endConversation.1 (evs ++ [m1.endConversation.2])
      | (m1, evs, .next) =>
          match ConversationManager.runConversationLoop backend fuel m1 (callIdx + 1) with
          | .finished m2 evs2 => .finished m2 (evs ++ evs2)
          | .stillRunning m2 evs2 => .stillRunning m2 (evs ++ evs2)
    else
      .finished m.endConversation.1 [m.endConversation.2]

/-- The CLIOptions fields startConversation reads. -/
structure CLIOptions where
  topic : Option String
  maxTurns : Option Nat
  deriving DecidableEq

/-- The pre-loop part of startConversation (manager.ts lines 81-107, after
the connectivity check succeeded): set the run flags, reset the turn
counter, apply truthy topic and maxTurns options (empty string and 0 are
falsy), and record the initial prompt as a message authored by the
sentinel "User" speaker.  Returns the manager about to enter the loop
together with the appended initial message. -/
def ConversationManager.startSetup (m : ConversationManager)
    (initialPrompt : String) (options : CLIOptions) :
    ConversationManager × ConversationMessage :=
  let m := { m with isRunning := true, state.isActive := true,
                    state.currentTurn := 0 }
  let m :=
    match options.topic with
    | some t =>
        if t = "" then m
        else { m with historyManager := m.historyManager.setTopic t }
    | none => m
  let m :=
    match options.maxTurns with
    | some k => if k = 0 then m else { m with state.maxTurns := some k }
    | none => m
  let (initialMessage, h) := m.historyManager.addMessage "User" initialPrompt none
  ({ m with historyManager := h }, initialMessage)

/-- startConversation (manager.ts lines 67-124).  connected is the result
of the awaited checkConnection call; when it is false the thrown
CONNECTION_FAILED error is caught by the method's own catch arm, which
clears the run flags and emits the error signal.  Otherwise the started
signal, the initial prompt's message signal and the loop's signals are
emitted in that order. -/
def ConversationManager.startConversation (m : ConversationManager)
    (backend : Backend) (connected : Bool) (fuel : Nat)
    (initialPrompt : String) (options : CLIOptions) :
    ConversationManager × List ConversationEvent :=
  if !connected then
    ({ m with isRunning := false, state.isActive := false },
      [.error "CONNECTION_FAILED"])
  else
    let (m1, initialMessage) := m.startSetup initialPrompt options
    match ConversationManager.runConversationLoop backend fuel m1 0 with
    | .finished m2 evs => (m2, .started :: .message initialMessage :: evs)
    | .stillRunning m2 evs => (m2, .started :: .message initialMessage :: evs)

/-- The speaker names of the message signals of an event stream, in order. -/
def messageSpeakers (events : List ConversationEvent) : List String :=
  events.filterMap fun e =>
    match e with
    | .message msg => some msg.personaName
    | _ => none

/-- The (totalMessages, duration) payloads of the ended signals of an event
stream, in order. -/
def endedPayloads (events : List ConversationEvent) : List (Nat × Nat) :=
  events.filterMap fun e =>
    match e with
    | .ended t d => some (t, d)
    | _ => none

/-- The codes of the error signals of an event stream, in order. -/
def errorCodes (events : List ConversationEvent) : List String :=
  events.filterMap fun e =>
    match e with
    | .error c => some c
    | _ => none

/-- The persona configuration a role denotes under a given config. -/
def personaFor (config : Config) : PersonaRole → PersonaConfig
  | .primary => config.primary
  | .secondary => config.secondary

/-- The expected speaker names of n successful turns starting from role r:
strict primary/secondary alternation. -/
def altNames (config : Config) (r : PersonaRole) : Nat → List String
  | 0 => []
  | n + 1 => (personaFor config r).name :: altNames config r.flip n

/-- A backend stub that succeeds on every call, echoing deterministic text
per call index. -/
def okBackend (gen : Nat → String) (model : Nat → String) : Backend :=
  fun i _ _ _ => .ok { content := gen i, model := model i }

/-- A backend stub that fails on every call. -/
def failBackend (err : Nat → String) : Backend :=
  fun i _ _ _ => .error (err i)

/-- A tiny concrete persona for ground instances. -/
def alicePersona : PersonaConfig :=
  { name := "Alice"
    personality := "curious"
    speakingStyle := "thoughtful"
    interests := ["philosophy"]
    systemPrompt := some "sp-alice" }

/-- A second tiny concrete persona for ground instances. -/
def bobPersona : PersonaConfig :=
  { name := "Bob"
    personality := "practical"
    speakingStyle := "enthusiastic"
    interests := ["technology"]
    systemPrompt := some "sp-bob" }

/-- A concrete manager configuration for ground instances. -/
def exampleConfig : Config :=
  { primary := alicePersona
    secondary := bobPersona
    modelName := "llama3"
    maxTurns := none
    contextWindow := 20
    turnDelay := 1000 }

/-- The five appends of the spec's trimming scenario. -/
def fiveMessages : List (String × String × Option (Nat × String)) :=
  [("User", "Message 1", none), ("User", "Message 2", none),
   ("User", "Message 3", none), ("User", "Message 4", none),
   ("User", "Message 5", none)]

/-- A concrete ledger for the search scenario. -/
def searchExampleLedger : ConversationHistoryManager :=
  appendMany (ConversationHistoryManager.init none)
    [("Alice", "Hello world", none), ("Bob", "Goodbye", none),
     ("Carol", "Hello everyone", none)]

/-- A registry with exactly two entries. -/
def twoPersonaManager : PersonaManager :=
  { personas := [("alice", alicePersona), ("bob", bobPersona)] }

/-- A registry with exactly one entry. -/
def onePersonaManager : PersonaManager :=
  { personas := [("alice", alicePersona)] }

/-- A concrete backend stub that succeeds on every call. -/
def okStubBackend : Backend :=
  okBackend (fun _ => "ok") (fun _ => "m")

/-- A concrete backend stub that fails on every call. -/
def failStubBackend : Backend :=
  failBackend (fun _ => "down")

/-- A manager immediately after a successful start (fuel 0: the loop has
not yet run an iteration) with a maxTurns ceiling of 2. -/
def startedManager : ConversationManager :=
  ((ConversationManager.init exampleConfig).startConversation failStubBackend
    true 0 "Hello" { topic := none, maxTurns := some 2 }).1

/-- A full concrete run against the always-failing backend: maxTurns 2,
five loop iterations. -/
def failRunExample : ConversationManager × List ConversationEvent :=
  (ConversationManager.init exampleConfig).startConversation failStubBackend
    true 5 "Hello" { topic := none, maxTurns := some 2 }

/-- A first full run on a fresh manager: successful backend, maxTurns 1. -/
def firstRunExample : ConversationManager × List ConversationEvent :=
  (ConversationManager.init exampleConfig).startConversation okStubBackend
    true 3 "Hello" { topic := none, maxTurns := some 1 }

/-- A second run started on the manager the first run left behind. -/
def secondRunExample : ConversationManager × List ConversationEvent :=
  firstRunExample.1.startConversation okStubBackend
    true 3 "Hello again" { topic := none, maxTurns := some 1 }

/-- A concrete message for the analytics ground instances. -/
def exampleMessage : ConversationMessage :=
  { id := 1
    personaName := "Alice"
    content := "Hello there"
    timestamp := 1
    metadata := none }

end AiConvo

namespace AiConvo

/-
Ledger lemmas and claims.
-/

theorem addMessage_maxMessages (hm : ConversationHistoryManager)
    (n c : String) (md : Option (Nat × String)) :
    ((hm.addMessage n c md).2).maxMessages = hm.maxMessages := by
  simp [ConversationHistoryManager.addMessage]

theorem addMessage_totalMessages (hm : ConversationHistoryManager)
    (n c : String) (md : Option (Nat × String)) :
    ((hm.addMessage n c md).2).history.totalMessages =
      hm.history.totalMessages + 1 := by
  simp [ConversationHistoryManager.addMessage]

theorem addMessage_fst (hm : ConversationHistoryManager)
    (n c : String) (md : Option (Nat × String)) :
    (hm.addMessage n c md).1 =
      { id := hm.history.nextId, personaName := n, content := c,
        timestamp := hm.history.nextId, metadata := md } := by
  simp [ConversationHistoryManager.addMessage]

theorem addMessage_history_messages (hm : ConversationHistoryManager)
    (n c : String) (md : Option (Nat × String)) :
    ((hm.addMessage n c md).2).history.messages =
      (hm.history.messages ++ [(hm.addMessage n c md).1]).drop
        ((hm.history.messages.length + 1) - hm.maxMessages) := by
  rw [addMessage_fst]
  simp only [ConversationHistoryManager.addMessage]
  split
  · simp
  · next h =>
      simp only [List.length_append, List.length_singleton, Nat.not_lt] at h ⊢
      rw [Nat.sub_eq_zero_of_le (by omega), List.drop_zero]

theorem drop_retention_step {α : Type} (l : List α) (x : α) (R : Nat) :
    ((l.drop (l.length - R)) ++ [x]).drop
        ((l.drop (l.length - R)).length + 1 - R)
      = (l ++ [x]).drop (l.length + 1 - R) := by
  rcases Nat.lt_or_ge l.length R with h | h
  · have h0 : l.length - R = 0 := by omega
    have h1 : l.length + 1 - R = 0 := by omega
    simp [h0, h1]
  · have hd : (l.drop (l.length - R)).length = R := by
      rw [List.length_drop]; omega
    rw [hd]
    rcases Nat.eq_zero_or_pos R with hR | hR
    · subst hR
      simp
    · have h1 : R + 1 - R = 1 := by omega
      have h2 : l.length + 1 - R = (l.length - R) + 1 := by omega
      rw [h1, h2]
      rw [List.drop_append_of_le_length (by omega), List.drop_drop,
        List.drop_append_of_le_length (by omega)]

theorem appendMany_maxMessages (items : List (String × String × Option (Nat × String))) :
    ∀ hm : ConversationHistoryManager,
      (appendMany hm items).maxMessages = hm.maxMessages := by
  induction items with
  | nil => intro hm; rfl
  | cons x xs ih =>
      intro hm
      simp only [appendMany, List.foldl_cons]
      rw [show (List.foldl _ _ xs : ConversationHistoryManager) = appendMany _ xs from rfl,
        ih, addMessage_maxMessages]

theorem appendMany_append_singleton (hm : ConversationHistoryManager)
    (xs : List (String × String × Option (Nat × String)))
    (x : String × String × Option (Nat × String)) :
    appendMany hm (xs ++ [x]) =
      ((appendMany hm xs).addMessage x.1 x.2.1 x.2.2).2 := by
  simp [appendMany, List.foldl_append]

theorem appendMany_totalMessages (maxRetain cw : Nat)
    (items : List (String × String × Option (Nat × String))) :
    (appendMany (ConversationHistoryManager.init none maxRetain cw) items).history.totalMessages
      = items.length := by
  induction items using List.reverseRecOn with
  | nil => rfl
  | append_singleton xs x ih =>
      rw [appendMany_append_singleton, addMessage_totalMessages, ih]
      simp

theorem appendMany_messages (maxRetain cw : Nat)
    (items : List (String × String × Option (Nat × String))) :
    (appendMany (ConversationHistoryManager.init none maxRetain cw) items).history.messages.map msgData
      = items.drop (items.length - maxRetain) := by
  induction items using List.reverseRecOn with
  | nil => simp [appendMany, ConversationHistoryManager.init]
  | append_singleton xs x ih =>
      have hmax := appendMany_maxMessages xs (ConversationHistoryManager.init none maxRetain cw)
      have hL : (appendMany (ConversationHistoryManager.init none maxRetain cw) xs).history.messages.length
          = ((appendMany (ConversationHistoryManager.init none maxRetain cw) xs).history.messages.map msgData).length := by
        simp
      rw [appendMany_append_singleton, addMessage_history_messages, addMessage_fst,
        List.map_drop, List.map_append, hmax]
      simp only [List.map_cons, List.map_nil, msgData, List.length_append,
        List.length_singleton]
      rw [show (ConversationHistoryManager.init none maxRetain cw).maxMessages = maxRetain from rfl]
      rw [hL, ih]
      have hx : ((x.1, x.2.1, x.2.2) : String × String × Option (Nat × String)) = x := rfl
      rw [hx]
      exact drop_retention_step xs x maxRetain

/-- Claim C2: for every sequence of N appends to a ledger with maximum
retention maxRetain, the total-message counter equals N regardless of
trimming, and the retained sequence is exactly the last min(N, maxRetain)
appended messages in append order; in particular with maxRetain = 3, after
appending "Message 1" through "Message 5" the retained contents are exactly
["Message 3", "Message 4", "Message 5"] while totalMessages is 5. -/
theorem claim_C2_retention_invariant :
    (∀ (maxRetain cw : Nat)
        (items : List (String × String × Option (Nat × String))),
      (appendMany (ConversationHistoryManager.init none maxRetain cw) items).history.totalMessages
          = items.length ∧
        (appendMany (ConversationHistoryManager.init none maxRetain cw) items).history.messages.map msgData
          = items.drop (items.length - maxRetain)) ∧
    (appendMany (ConversationHistoryManager.init none 3 20) fiveMessages).history.messages.map
        (fun m => m.content) = ["Message 3", "Message 4", "Message 5"] ∧
    (appendMany (ConversationHistoryManager.init none 3 20) fiveMessages).history.totalMessages = 5 := by
  refine ⟨fun maxRetain cw items =>
    ⟨appendMany_totalMessages maxRetain cw items,
      appendMany_messages maxRetain cw items⟩, by decide, by decide⟩

end AiConvo

namespace AiConvo

theorem getLastMessages_eq_drop (hm : ConversationHistoryManager) (count : Int) :
    hm.getLastMessages count
      = hm.history.messages.drop (hm.history.messages.length - count.toNat) := by
  show hm.history.messages.drop (max 0 ((hm.history.messages.length : Int) - count)).toNat
      = hm.history.messages.drop (hm.history.messages.length - count.toNat)
  rcases Int.le_or_lt 0 count with hc | hc
  · congr 1
    omega
  · rw [List.drop_eq_nil_of_le (by omega), List.drop_eq_nil_of_le (by omega)]

/-- Claim C8: lastN returns the last min(count, retainedLength) retained
messages oldest-of-the-slice first; a count of 0 yields the empty sequence,
negative counts are clamped (also yielding the empty sequence), and
lastN(k) equals allMessages() whenever k is at least the retained length. -/
theorem claim_C8_lastN (hm : ConversationHistoryManager) (count : Int) :
    hm.getLastMessages count
        = hm.history.messages.drop (hm.history.messages.length - count.toNat) ∧
      (hm.getLastMessages count).length
        = min count.toNat hm.history.messages.length ∧
      (count ≤ 0 → hm.getLastMessages count = []) ∧
      ((hm.history.messages.length : Int) ≤ count →
        hm.getLastMessages count = hm.getMessages) := by
  refine ⟨getLastMessages_eq_drop hm count, ?_, ?_, ?_⟩
  · rw [getLastMessages_eq_drop, List.length_drop]
    omega
  · intro h
    rw [getLastMessages_eq_drop]
    have h0 : count.toNat = 0 := by omega
    rw [h0, Nat.sub_zero, List.drop_length]
  · intro h
    rw [getLastMessages_eq_drop]
    have h0 : hm.history.messages.length - count.toNat = 0 := by omega
    rw [h0, List.drop_zero]
    rfl

/-- Witness for claim C8 at a concrete ledger: a negative count yields the
empty sequence, and a count at least the retained length yields all
retained messages. -/
theorem claim_C8_lastN_witness :
    searchExampleLedger.getLastMessages (-1) = [] ∧
      searchExampleLedger.getLastMessages 7 = searchExampleLedger.getMessages := by
  exact ⟨(claim_C8_lastN searchExampleLedger (-1)).2.2.1 (by decide),
    (claim_C8_lastN searchExampleLedger 7).2.2.2 (by decide)⟩

theorem listStartsWith_iff (needle hay : List Char) :
    listStartsWith hay needle = true ↔ ∃ post, hay = needle ++ post := by
  induction needle generalizing hay with
  | nil => simp [listStartsWith]
  | cons b rest ih =>
      cases hay with
      | nil => simp [listStartsWith]
      | cons a tail =>
          simp only [listStartsWith, Bool.and_eq_true, decide_eq_true_eq, ih,
            List.cons_append, List.cons.injEq]
          constructor
          · rintro ⟨hab, post, hp⟩
            exact ⟨post, hab, hp⟩
          · rintro ⟨post, hab, hp⟩
            exact ⟨hab, post, hp⟩

theorem listContainsSub_iff (needle hay : List Char) :
    listContainsSub hay needle = true ↔ ∃ pre post, hay = pre ++ needle ++ post := by
  induction hay with
  | nil =>
      rw [listContainsSub]
      cases needle with
      | nil => simp [listStartsWith]
      | cons b rest => simp [listStartsWith]
  | cons a tail ih =>
      rw [listContainsSub]
      simp only [Bool.or_eq_true, listStartsWith_iff, ih]
      constructor
      · rintro (⟨post, hp⟩ | ⟨pre, post, hp⟩)
        · exact ⟨[], post, by simpa using hp⟩
        · exact ⟨a :: pre, post, by simp [hp]⟩
      · rintro ⟨pre, post, hp⟩
        cases pre with
        | nil =>
            left
            exact ⟨post, by simpa using hp⟩
        | cons p ps =>
            right
            simp only [List.cons_append, List.cons.injEq] at hp
            exact ⟨ps, post, hp.2⟩

theorem jsIncludes_iff (hay needle : String) :
    jsIncludes hay needle = true ↔ SubstringOf needle hay :=
  listContainsSub_iff needle.toList hay.toList

/-- Claim C9: search returns exactly the retained messages whose content or
speaker name contains the query as a substring (case-folded unless
caseSensitive), preserving ledger order; in particular searching "hello"
matches content "Hello world" but not "Goodbye". -/
theorem claim_C9_search :
    (∀ (hm : ConversationHistoryManager) (query : String) (caseSensitive : Bool)
        (m : ConversationMessage),
      m ∈ hm.searchMessages query caseSensitive ↔
        m ∈ hm.history.messages ∧ MatchesQuery caseSensitive query m) ∧
    (∀ (hm : ConversationHistoryManager) (query : String) (caseSensitive : Bool),
      (hm.searchMessages query caseSensitive).Sublist hm.history.messages) ∧
    (searchExampleLedger.searchMessages "hello").map (fun m => m.content)
      = ["Hello world", "Hello everyone"] := by
  refine ⟨?_, ?_, by decide⟩
  · intro hm query caseSensitive m
    show m ∈ List.filter _ hm.history.messages ↔ _
    rw [List.mem_filter]
    constructor
    · rintro ⟨hmem, hp⟩
      refine ⟨hmem, ?_⟩
      cases caseSensitive <;>
        simpa [MatchesQuery, ← jsIncludes_iff, Bool.or_eq_true] using hp
    · rintro ⟨hmem, hp⟩
      refine ⟨hmem, ?_⟩
      cases caseSensitive <;>
        simpa [MatchesQuery, ← jsIncludes_iff, Bool.or_eq_true] using hp
  · intro hm query caseSensitive
    exact List.filter_sublist _

theorem perm_pair_cases {α : Type} {a b : α} {l : List α}
    (h : l.Perm [a, b]) : l = [a, b] ∨ l = [b, a] := by
  have hlen : l.length = 2 := by simpa using h.length_eq
  rcases l with _ | ⟨x, tl⟩
  · simp at hlen
  rcases tl with _ | ⟨y, tl2⟩
  · simp at hlen
  rcases tl2 with _ | ⟨z, tl3⟩
  case cons.cons.cons => simp at hlen
  have hx : x ∈ ([a, b] : List α) := h.mem_iff.mp (by simp)
  have hx2 : x = a ∨ x = b := by simpa using hx
  rcases hx2 with hxa | hxb
  · subst hxa
    have hy : y = b := by simpa [List.perm_singleton] using h.cons_inv
    subst hy
    exact Or.inl rfl
  · subst hxb
    have h2 : List.Perm (x :: [y]) (x :: [a]) := h.trans (List.Perm.swap x a [])
    have hy : y = a := by simpa [List.perm_singleton] using h2.cons_inv
    subst hy
    exact Or.inr rfl

/-- Claim C10: randomPair fails whenever the registry holds fewer than two
entries, and on a registry with exactly two entries it returns both
entries, in some order, for every permutation the random shuffle produces. -/
theorem claim_C10_randomPair :
    (∀ (pm : PersonaManager) (shuffle : List PersonaConfig → List PersonaConfig),
      pm.getAllPersonas.length < 2 → pm.getRandomPersonaPair shuffle = none) ∧
    (∀ (pm : PersonaManager) (shuffle : List PersonaConfig → List PersonaConfig)
        (a b : PersonaConfig),
      pm.getAllPersonas = [a, b] →
      (shuffle pm.getAllPersonas).Perm pm.getAllPersonas →
      pm.getRandomPersonaPair shuffle = some (a, b) ∨
        pm.getRandomPersonaPair shuffle = some (b, a)) := by
  constructor
  · intro pm shuffle h
    unfold PersonaManager.getRandomPersonaPair
    simp [h]
  · intro pm shuffle a b hall hperm
    rw [hall] at hperm
    rcases perm_pair_cases hperm with hs | hs
    · left
      simp [PersonaManager.getRandomPersonaPair, hall, hs]
    · right
      simp [PersonaManager.getRandomPersonaPair, hall, hs]

/-- Witness for claim C10: on the concrete one-entry registry the pair
selection fails, and on the concrete two-entry registry with the identity
shuffle it returns both entries. -/
theorem claim_C10_randomPair_witness :
    onePersonaManager.getRandomPersonaPair id = none ∧
      (twoPersonaManager.getRandomPersonaPair id = some (alicePersona, bobPersona) ∨
        twoPersonaManager.getRandomPersonaPair id = some (bobPersona, alicePersona)) := by
  exact ⟨claim_C10_randomPair.1 onePersonaManager id (by decide),
    claim_C10_randomPair.2 twoPersonaManager id alicePersona bobPersona rfl
      (List.Perm.refl _)⟩

end AiConvo

namespace AiConvo

theorem parseSummaryResponse_of_parse_none (parse : String → Option ParsedSummary)
    (response : String) (messages : List ConversationMessage) (type : SummaryType)
    (h : parse response = none) :
    parseSummaryResponse parse response messages type
      = generateBasicSummary messages type := by
  simp [parseSummaryResponse, h]

/-- Claim C7: summarize fails exactly when given zero messages; for every
non-empty slice, a failing backend call, or an unparseable backend
response, yields the deterministic local fallback summary as a success,
and that fallback itself never fails. -/
theorem claim_C7_summary_fallback (backend : Backend)
    (parse : String → Option ParsedSummary) (callIdx : Nat)
    (messages : List ConversationMessage) (type : SummaryType)
    (personas : PersonaConfig × PersonaConfig) :
    ((∃ e, generateSummary backend parse callIdx messages type personas
        = .error e) ↔ messages = []) ∧
      ((∀ p s c, ∃ e, backend callIdx p s c = Except.error e) → messages ≠ [] →
        generateSummary backend parse callIdx messages type personas
          = .ok (generateBasicSummary messages type)) ∧
      ((∀ r, parse r = none) → messages ≠ [] →
        generateSummary backend parse callIdx messages type personas
          = .ok (generateBasicSummary messages type)) := by
  refine ⟨?_, ?_, ?_⟩
  · cases messages with
    | nil => simp [generateSummary]
    | cons m ms =>
        simp only [generateSummary, List.length_cons]
        rw [if_neg (by omega)]
        refine iff_of_false ?_ (by simp)
        rintro ⟨e, he⟩
        split at he <;> exact Except.noConfusion he
  · intro hfail hne
    cases messages with
    | nil => exact absurd rfl hne
    | cons m ms =>
        simp only [generateSummary, List.length_cons]
        rw [if_neg (by omega)]
        obtain ⟨e, he⟩ := hfail _ _ _
        rw [he]
  · intro hparse hne
    cases messages with
    | nil => exact absurd rfl hne
    | cons m ms =>
        simp only [generateSummary, List.length_cons]
        rw [if_neg (by omega)]
        split
        · rw [parseSummaryResponse_of_parse_none _ _ _ _ (hparse _)]
        · rfl

/-- Witness for claim C7: on a concrete one-message slice, both the
always-failing backend and the never-parsing response path return the local
fallback summary, and the empty slice fails. -/
theorem claim_C7_summary_fallback_witness :
    (generateSummary failStubBackend (fun _ => none) 0 [exampleMessage] .final
        (alicePersona, bobPersona)
      = .ok (generateBasicSummary [exampleMessage] .final)) ∧
      (∃ e, generateSummary failStubBackend (fun _ => none) 0 [] .final
        (alicePersona, bobPersona) = .error e) := by
  refine ⟨(claim_C7_summary_fallback failStubBackend (fun _ => none) 0
      [exampleMessage] .final (alicePersona, bobPersona)).2.1
      (fun p s c => ⟨"down", rfl⟩) (by simp), ?_⟩
  exact (claim_C7_summary_fallback failStubBackend (fun _ => none) 0
    [] .final (alicePersona, bobPersona)).1.mpr rfl

end AiConvo

namespace AiConvo

/-
Scheduler lemmas and claims.
-/

theorem generatePersonaResponse_fail (m : ConversationManager) (backend : Backend)
    (callIdx : Nat) (persona : PersonaConfig)
    (hfail : ∀ p s c, ∃ e, backend callIdx p s c = Except.error e) :
    m.generatePersonaResponse backend callIdx persona
      = .error { code := "GENERATION_FAILED" } := by
  simp only [ConversationManager.generatePersonaResponse]
  obtain ⟨e, he⟩ := hfail _ _ _
  rw [he]

theorem loopIter_fail (m : ConversationManager) (backend : Backend) (callIdx : Nat)
    (hstop : m.shouldStopConversation = false)
    (hfail : ∀ p s c, ∃ e, backend callIdx p s c = Except.error e) :
    m.loopIter backend callIdx
      = (m, [.thinking m.getCurrentPersona.name, .error "GENERATION_FAILED"],
          .next) := by
  simp only [ConversationManager.loopIter, hstop, Bool.false_eq_true, if_false,
    generatePersonaResponse_fail m backend callIdx _ hfail]
  simp

/-- Claim C5: in a loop iteration whose backend call fails (the wrapped
error is the non-critical GENERATION_FAILED), the manager is returned
unchanged — no message appended, turn index not incremented, speaker not
flipped, context untouched — the emitted signals are only the thinking
signal and one error signal, and the loop falls through to the next
iteration, which therefore attempts the same persona again. -/
theorem claim_C5_failed_turn_frame (m : ConversationManager) (backend : Backend)
    (callIdx : Nat) (hstop : m.shouldStopConversation = false)
    (hfail : ∀ p s c, ∃ e, backend callIdx p s c = Except.error e) :
    m.loopIter backend callIdx
      = (m, [.thinking m.getCurrentPersona.name, .error "GENERATION_FAILED"],
          .next) :=
  loopIter_fail m backend callIdx hstop hfail

/-- Witness for claim C5 at the concrete started manager: one failing
iteration leaves it untouched and emits thinking plus one error signal. -/
theorem claim_C5_failed_turn_frame_witness :
    startedManager.loopIter failStubBackend 0
      = (startedManager,
          [.thinking startedManager.getCurrentPersona.name,
            .error "GENERATION_FAILED"], .next) :=
  claim_C5_failed_turn_frame startedManager failStubBackend 0 (by decide)
    (fun p s c => ⟨"down", rfl⟩)

/-- Claim C6: when the connectivity check fails at start, the scheduler
reports the connection failure (code CONNECTION_FAILED, the source's
BackendUnavailable condition) and stays idle: isActive and isRunning stay
false, no message is appended (not even the initial prompt), no turn runs,
and the only emitted signal is the single error signal. -/
theorem claim_C6_connection_failure (cfg : Config) (backend : Backend)
    (fuel : Nat) (prompt : String) (options : CLIOptions) :
    (ConversationManager.init cfg).startConversation backend false fuel prompt
        options
      = (ConversationManager.init cfg, [.error "CONNECTION_FAILED"]) ∧
      ((ConversationManager.init cfg).startConversation backend false fuel prompt
          options).1.state.isActive = false ∧
      ((ConversationManager.init cfg).startConversation backend false fuel prompt
          options).1.historyManager.history.messages = [] ∧
      ((ConversationManager.init cfg).startConversation backend false fuel prompt
          options).1.state.currentTurn = 0 := by
  refine ⟨rfl, rfl, rfl, rfl⟩

end AiConvo

namespace AiConvo

theorem filterMap_flatten_replicate {α β : Type} (f : α → Option β) (l : List α)
    (n : Nat) :
    List.filterMap f (List.flatten (List.replicate n l)) =
      List.flatten (List.replicate n (List.filterMap f l)) := by
  induction n with
  | zero => rfl
  | succ k ih => simp [List.replicate_succ, ih]

theorem flatten_replicate_singleton {α : Type} (x : α) (n : Nat) :
    List.flatten (List.replicate n [x]) = List.replicate n x := by
  induction n with
  | zero => rfl
  | succ k ih => simp [List.replicate_succ, ih]

theorem flatten_replicate_nil {α : Type} (n : Nat) :
    List.flatten (List.replicate n ([] : List α)) = [] := by
  induction n with
  | zero => rfl
  | succ k ih => simp [List.replicate_succ, ih]

theorem runLoop_fail (backend : Backend)
    (hfail : ∀ i p s c, ∃ e, backend i p s c = Except.error e) (fuel : Nat) :
    ∀ (m : ConversationManager) (callIdx : Nat),
      m.isRunning = true → m.state.isActive = true →
      m.shouldStopConversation = false →
      ConversationManager.runConversationLoop backend fuel m callIdx =
        .stillRunning m
          (List.flatten (List.replicate fuel
            [.thinking m.getCurrentPersona.name, .error "GENERATION_FAILED"])) := by
  induction fuel with
  | zero => intro m callIdx _ _ _; rfl
  | succ n ih =>
      intro m callIdx hrun hact hstop
      rw [ConversationManager.runConversationLoop, hrun, hact]
      simp only [Bool.and_self, if_true]
      rw [loopIter_fail m backend callIdx hstop (hfail callIdx)]
      dsimp only
      rw [ih m (callIdx + 1) hrun hact hstop]
      simp [List.replicate_succ]

/-- Claim C1 (amended): with a started scheduler under its maxTurns ceiling
and a backend whose every call fails non-critically, the loop appends no
generated message (the manager, its ledger included, is unchanged after any
number of iterations), emits exactly one error signal (and one thinking
signal) per failed attempt, and never terminates: failed attempts do not
advance the turn counter, so the stop condition never becomes true — in
particular the loop passes maxTurns worth of attempts without ending,
rather than ending there. -/
theorem claim_C1_failing_backend_loop (backend : Backend)
    (hfail : ∀ i p s c, ∃ e, backend i p s c = Except.error e)
    (m : ConversationManager) (callIdx fuel : Nat)
    (hrun : m.isRunning = true) (hact : m.state.isActive = true)
    (hstop : m.shouldStopConversation = false) :
    ConversationManager.runConversationLoop backend fuel m callIdx
        = .stillRunning m
          (List.flatten (List.replicate fuel
            [.thinking m.getCurrentPersona.name, .error "GENERATION_FAILED"])) ∧
      errorCodes (ConversationManager.runConversationLoop backend fuel m callIdx).events
        = List.replicate fuel "GENERATION_FAILED" ∧
      messageSpeakers (ConversationManager.runConversationLoop backend fuel m callIdx).events
        = [] ∧
      endedPayloads (ConversationManager.runConversationLoop backend fuel m callIdx).events
        = [] := by
  have key := runLoop_fail backend hfail fuel m callIdx hrun hact hstop
  refine ⟨key, ?_, ?_, ?_⟩ <;>
    rw [key] <;>
    simp only [LoopResult.events, errorCodes, messageSpeakers, endedPayloads,
      filterMap_flatten_replicate] <;>
    simp [flatten_replicate_singleton, flatten_replicate_nil]

/-- Witness for claim C1 at the concrete started manager (maxTurns 2) and
the concrete failing backend, for five iterations. -/
theorem claim_C1_failing_backend_loop_witness :
    ConversationManager.runConversationLoop failStubBackend 5 startedManager 0
        = .stillRunning startedManager
          (List.flatten (List.replicate 5
            [.thinking startedManager.getCurrentPersona.name,
              .error "GENERATION_FAILED"])) ∧
      errorCodes (ConversationManager.runConversationLoop failStubBackend 5
          startedManager 0).events = List.replicate 5 "GENERATION_FAILED" ∧
      messageSpeakers (ConversationManager.runConversationLoop failStubBackend 5
          startedManager 0).events = [] ∧
      endedPayloads (ConversationManager.runConversationLoop failStubBackend 5
          startedManager 0).events = [] :=
  claim_C1_failing_backend_loop failStubBackend
    (fun i p s c => ⟨"down", rfl⟩) startedManager 0 5 (by decide) (by decide)
    (by decide)

/-- Counterexample to claim C1 as stated: in the concrete run with
maxTurns 2 and an always-failing backend, the loop makes five attempts
(five error signals, one per attempt, and nothing appended beyond the
initial prompt) yet never ends: no end-of-conversation signal is emitted,
the scheduler is still active and the completed-turn counter is still 0 —
the conversation does not stop after maxTurns worth of attempts. -/
theorem claim_C1_counterexample :
    errorCodes failRunExample.2 = List.replicate 5 "GENERATION_FAILED" ∧
      endedPayloads failRunExample.2 = [] ∧
      messageSpeakers failRunExample.2 = ["User"] ∧
      failRunExample.1.state.isActive = true ∧
      failRunExample.1.isRunning = true ∧
      failRunExample.1.state.currentTurn = 0 ∧
      failRunExample.1.historyManager.history.totalMessages = 1 := by
  decide

end AiConvo

namespace AiConvo

theorem messageSpeakers_append (a b : List ConversationEvent) :
    messageSpeakers (a ++ b) = messageSpeakers a ++ messageSpeakers b :=
  List.filterMap_append a b _

theorem messageSpeakers_endEvent (m : ConversationManager) :
    messageSpeakers [m.endConversation.2] = [] := by
  simp [ConversationManager.endConversation, messageSpeakers]

theorem getCurrentPersona_eq (m : ConversationManager) :
    m.getCurrentPersona = personaFor m.config m.state.currentPersona := by
  cases h : m.state.currentPersona <;>
    simp [ConversationManager.getCurrentPersona, personaFor, h]

theorem generatePersonaResponse_error_code (m : ConversationManager)
    (backend : Backend) (callIdx : Nat) (persona : PersonaConfig)
    (e : ConversationError)
    (h : m.generatePersonaResponse backend callIdx persona = .error e) :
    e.code = "GENERATION_FAILED" := by
  revert h
  simp only [ConversationManager.generatePersonaResponse]
  split
  · intro h
    exact Except.noConfusion h
  · intro h
    injection h with h1
    rw [← h1]

theorem loopIter_cases (m : ConversationManager) (backend : Backend)
    (callIdx : Nat) (m1 : ConversationManager) (evs : List ConversationEvent)
    (sig : IterSignal) (h : m.loopIter backend callIdx = (m1, evs, sig)) :
    (messageSpeakers evs = [] ∧ m1 = m) ∨
      (messageSpeakers evs = [m.getCurrentPersona.name] ∧
        m1.config = m.config ∧
        m1.state.currentPersona = m.state.currentPersona.flip ∧
        sig = .next) := by
  revert h
  simp only [ConversationManager.loopIter]
  split
  · intro h
    rw [Prod.mk.injEq, Prod.mk.injEq] at h
    obtain ⟨h1, h2, h3⟩ := h
    exact Or.inl ⟨by rw [← h2]; rfl, h1.symm⟩
  · split
    · intro h
      rw [Prod.mk.injEq, Prod.mk.injEq] at h
      obtain ⟨h1, h2, h3⟩ := h
      exact Or.inl ⟨by rw [← h2]; rfl, h1.symm⟩
    · intro h
      rw [Prod.mk.injEq, Prod.mk.injEq] at h
      obtain ⟨h1, h2, h3⟩ := h
      refine Or.inr ⟨by rw [← h2]; rfl, ?_, ?_, h3.symm⟩
      · rw [← h1]
        rfl
      · rw [← h1]
        rfl

theorem runLoop_speakers (backend : Backend) (fuel : Nat) :
    ∀ (m : ConversationManager) (callIdx : Nat),
      ∃ k, messageSpeakers
          (ConversationManager.runConversationLoop backend fuel m callIdx).events
        = altNames m.config m.state.currentPersona k := by
  induction fuel with
  | zero => intro m callIdx; exact ⟨0, rfl⟩
  | succ n ih =>
      intro m callIdx
      rw [ConversationManager.runConversationLoop]
      by_cases hcond : (m.isRunning && m.state.isActive) = true
      · rw [if_pos hcond]
        rcases hiter : m.loopIter backend callIdx with ⟨m1, evs, sig⟩
        rcases loopIter_cases m backend callIdx m1 evs sig hiter with
          ⟨hsp, hm⟩ | ⟨hsp, hcfg, hper, hsig⟩
        · cases sig
          · obtain ⟨k, hk⟩ := ih m1 (callIdx + 1)
            refine ⟨k, ?_⟩
            rcases hr : ConversationManager.runConversationLoop backend n m1
                (callIdx + 1) with ⟨m2, evs2⟩ | ⟨m2, evs2⟩ <;>
            · rw [hr] at hk
              dsimp only [LoopResult.events] at hk
              dsimp only
              rw [hr]
              dsimp only [LoopResult.events]
              rw [messageSpeakers_append, hsp, hk, hm]
              simp
          · refine ⟨0, ?_⟩
            dsimp only [LoopResult.events]
            rw [messageSpeakers_append, hsp, messageSpeakers_endEvent]
            simp [altNames]
        · subst hsig
          obtain ⟨k, hk⟩ := ih m1 (callIdx + 1)
          refine ⟨k + 1, ?_⟩
          rcases hr : ConversationManager.runConversationLoop backend n m1
              (callIdx + 1) with ⟨m2, evs2⟩ | ⟨m2, evs2⟩ <;>
          · rw [hr] at hk
            dsimp only [LoopResult.events] at hk
            dsimp only
            rw [hr]
            dsimp only [LoopResult.events]
            rw [messageSpeakers_append, hsp, hk, hcfg, hper, getCurrentPersona_eq]
            cases m.state.currentPersona <;>
              simp [altNames, PersonaRole.flip, personaFor]
      · rw [if_neg hcond]
        refine ⟨0, ?_⟩
        dsimp only [LoopResult.events]
        rw [messageSpeakers_endEvent]
        simp [altNames]

end AiConvo

namespace AiConvo

theorem startSetup_fields (m : ConversationManager) (prompt : String)
    (options : CLIOptions) :
    (m.startSetup prompt options).1.config = m.config ∧
      (m.startSetup prompt options).1.state.currentPersona
        = m.state.currentPersona ∧
      (m.startSetup prompt options).2.personaName = "User" := by
  rcases options with ⟨t, mt⟩
  simp only [ConversationManager.startSetup, ConversationHistoryManager.addMessage]
  cases t <;> cases mt <;> dsimp only <;> (try split_ifs) <;> simp

/-- Claim C4 (amended): successful turns strictly alternate between the
primary and secondary roles — for every backend (even one with interleaved
failures, which do not flip the speaker) the speakers of the appended
messages follow the alternation sequence that starts from the role current
when the loop is entered; on a freshly constructed scheduler the first
responding speaker after the initial "User" prompt is the primary persona.
startConversation does not reset the current role, so on an instance that
already ran before, the alternation starts from whatever role the previous
run stopped at rather than always from primary (see the counterexample). -/
theorem claim_C4_alternation :
    (∀ (backend : Backend) (fuel : Nat) (m : ConversationManager)
        (callIdx : Nat),
      ∃ k, messageSpeakers
          (ConversationManager.runConversationLoop backend fuel m callIdx).events
        = altNames m.config m.state.currentPersona k) ∧
    (∀ (cfg : Config) (backend : Backend) (fuel : Nat) (prompt : String)
        (options : CLIOptions),
      ∃ k, messageSpeakers
          ((ConversationManager.init cfg).startConversation backend true fuel
            prompt options).2
        = "User" :: altNames cfg PersonaRole.primary k) := by
  constructor
  · exact runLoop_speakers
  · intro cfg backend fuel prompt options
    obtain ⟨hcfg, hper, hbname⟩ :=
      startSetup_fields (ConversationManager.init cfg) prompt options
    obtain ⟨k, hk⟩ := runLoop_speakers backend fuel
      ((ConversationManager.init cfg).startSetup prompt options).1 0
    refine ⟨k, ?_⟩
    rw [hcfg, hper] at hk
    simp only [ConversationManager.startConversation, Bool.not_true,
      Bool.false_eq_true, if_false]
    rcases hs : (ConversationManager.init cfg).startSetup prompt options with
      ⟨m1, im⟩
    rw [hs] at hcfg hper hbname hk
    dsimp only at hcfg hper hbname hk ⊢
    rcases hr : ConversationManager.runConversationLoop backend fuel m1 0 with
      ⟨m2, evs2⟩ | ⟨m2, evs2⟩ <;>
    · rw [hr] at hk
      dsimp only [LoopResult.events] at hk
      simp only [messageSpeakers, List.filterMap_cons]
      rw [hbname]
      exact congrArg (List.cons "User") hk

/-- Counterexample to claim C4 as stated: the very first responding speaker
is not always the primary persona when a conversation is started on a
scheduler instance that has already run before.  After a first run of one
completed turn (speakers "User" then primary "Alice"), a second start on
the same instance has the secondary persona "Bob" respond first, because
startConversation does not reset the current speaker role. -/
theorem claim_C4_counterexample :
    exampleConfig.primary.name = "Alice" ∧
      messageSpeakers firstRunExample.2 = ["User", "Alice"] ∧
      messageSpeakers secondRunExample.2 = ["User", "Bob"] := by
  decide

end AiConvo

namespace AiConvo

/-- Claim C3: starting the scheduler with maxTurns 3 and a backend that
succeeds on every call halts the loop after exactly 3 completed turns
(whatever surplus iteration budget it is given), calls the ledger's end
operation (endTime becomes set), and emits exactly one end-of-conversation
signal whose totalMessages is 4 — the initial prompt plus 3 generated
turns, whose speakers alternate primary, secondary, primary. -/
theorem claim_C3_three_turns (cfg : Config) (gen model : Nat → String)
    (fuel : Nat) (prompt : String) :
    (endedPayloads ((ConversationManager.init cfg).startConversation
          (okBackend gen model) true (fuel + 4) prompt
          { topic := none, maxTurns := some 3 }).2).map Prod.fst = [4] ∧
      ((ConversationManager.init cfg).startConversation (okBackend gen model)
          true (fuel + 4) prompt
          { topic := none, maxTurns := some 3 }).1.state.currentTurn = 3 ∧
      ((ConversationManager.init cfg).startConversation (okBackend gen model)
          true (fuel + 4) prompt
          { topic := none, maxTurns := some 3 }).1.state.isActive = false ∧
      ((ConversationManager.init cfg).startConversation (okBackend gen model)
          true (fuel + 4) prompt
          { topic := none, maxTurns := some 3 }).1.isRunning = false ∧
      ((ConversationManager.init cfg).startConversation (okBackend gen model)
          true (fuel + 4) prompt
          { topic := none,
            maxTurns := some 3 }).1.historyManager.history.endTime.isSome
        = true ∧
      ((ConversationManager.init cfg).startConversation (okBackend gen model)
          true (fuel + 4) prompt
          { topic := none,
            maxTurns := some 3 }).1.historyManager.history.totalMessages = 4 ∧
      messageSpeakers ((ConversationManager.init cfg).startConversation
          (okBackend gen model) true (fuel + 4) prompt
          { topic := none, maxTurns := some 3 }).2
        = ["User", cfg.primary.name, cfg.secondary.name, cfg.primary.name] := by
  refine ⟨?_, ?_, ?_, ?_, ?_, ?_, ?_⟩ <;>
    simp [ConversationManager.startConversation, ConversationManager.startSetup,
      ConversationManager.runConversationLoop, ConversationManager.loopIter,
      ConversationManager.shouldStopConversation,
      ConversationManager.generatePersonaResponse, okBackend,
      ConversationManager.init, ConversationHistoryManager.init,
      ConversationHistoryManager.addMessage,
      ConversationManager.getCurrentPersona, ConversationManager.switchPersona,
      ConversationManager.updateContext, ConversationManager.endConversation,
      ConversationHistoryManager.endConversation,
      ConversationHistoryManager.getMessageStats, PersonaRole.flip, mkMetadata,
      endedPayloads, messageSpeakers]

end AiConvo
